import Mathlib

/-!
Shallow embedding of the SWOT-based employee productivity risk monitoring
scripts.  Numeric columns are modelled as exact rationals (ℚ); Python's
`round(x, n)` and numpy/pandas `.round(n)` round half to even, modelled by
`rhe` below; pandas `.clip(lo, hi)` is `clip`.  Missing values (NaN, absent
dict keys) are modelled with `Option`.
-/

/-- Round a rational to the nearest integer, ties to even
(the rounding mode of Python's built-in `round` and of numpy). -/
def rhe (x : ℚ) : ℤ :=
  if x - ⌊x⌋ = 1 / 2 then (if Even ⌊x⌋ then ⌊x⌋ else ⌊x⌋ + 1) else round x

/-- `round(x, 2)` : round to 2 decimal places. -/
def round2 (x : ℚ) : ℚ := (rhe (x * 100) : ℚ) / 100

/-- `round(x, 1)` : round to 1 decimal place. -/
def round1 (x : ℚ) : ℚ := (rhe (x * 10) : ℚ) / 10

/-- pandas `Series.clip(lo, hi)` on one value. -/
def clip (lo hi x : ℚ) : ℚ := min hi (max lo x)

/-- The four SWOT buckets. -/
inductive SWOTCategory
  | Strength
  | Opportunity
  | Weakness
  | Threat
deriving DecidableEq, BEq, Repr

/-- A boolean-like cell of the `Resigned` column: either a native Python
bool or a string (as the raw CSV readers produce). -/
inductive BoolLike
  | pybool (b : Bool)
  | str (s : String)
deriving DecidableEq, Repr

/-- Python `str(v)` on a boolean-like value (`astype(str)` per cell). -/
def pyStr : BoolLike → String
  | .pybool true => "True"
  | .pybool false => "False"
  | .str s => s

/-- Python `str.lower()` (ASCII data; pandas `.str.lower()` per cell). -/
def pyLower (s : String) : String := ⟨s.data.map Char.toLower⟩

/-- Python `str.strip()`: drop leading and trailing whitespace. -/
def pyStrip (s : String) : String :=
  ⟨((s.data.dropWhile Char.isWhitespace).reverse.dropWhile
      Char.isWhitespace).reverse⟩

/-- One parsed row of the employee table (numeric columns already numbers,
as after `pd.read_csv`); only the columns the scoring formulas read. -/
structure Employee where
  performance : ℚ
  work_hours : ℚ
  projects : ℚ
  training_hours : ℚ
  sick_days : ℚ
  satisfaction : ℚ
  overtime : ℚ
  promotions : ℚ
  remote_work : ℚ
  years_at_company : ℚ
  resigned : BoolLike

/-- Result of an attrition-model training step: either skipped (fewer than
two target classes; no probability or risk-level fields are populated) or
trained, carrying one predicted probability per record. -/
inductive AttritionResult
  | skipped
  | trained (probs : List ℚ)
deriving DecidableEq, Repr

namespace TrainBasic

/-- `train_mltk_models.create_features`: basic productivity score. -/
def productivity_score (e : Employee) : ℚ :=
  round2 ((e.performance * 2 + e.work_hours / 40 + e.projects / 10 +
    e.training_hours / 50 - e.sick_days / 5 + e.satisfaction / 5) / 6)

/-- `train_mltk_models.create_features`: basic engagement score. -/
def engagement_score (e : Employee) : ℚ :=
  round2 ((e.satisfaction + e.training_hours / 10 + e.promotions * 2 -
    e.sick_days * 0.5) / 4)

/-- `self.df['Resigned'].map({'True': 5, 'False': 0})` — any other value
(including a native bool) maps to NaN, i.e. `none`. -/
def resigned_map : BoolLike → Option ℚ
  | .str "True" => some 5
  | .str "False" => some 0
  | _ => none

/-- `train_mltk_models.create_features`: basic risk score (NaN when the
resignation cell is not the string True/False). -/
def risk_score (e : Employee) : Option ℚ :=
  (resigned_map e.resigned).map fun rr =>
    round2 ((e.sick_days + e.overtime / 10 + rr + (5 - e.performance) -
      e.satisfaction) / 5)

/-- `train_mltk_models.create_features`: work-life balance score. -/
def work_life_balance_score (e : Employee) : ℚ :=
  if e.overtime ≤ 5 then 5 else if e.overtime ≤ 15 then 4
  else if e.overtime ≤ 25 then 3 else 2

/-- `train_mltk_models.create_features`: tenure factor. -/
def tenure_factor (e : Employee) : ℚ :=
  if e.years_at_company ≤ 1 then 1 else if e.years_at_company ≤ 3 then 2
  else if e.years_at_company ≤ 5 then 3 else 4

/-- `train_attrition_model` target: `y_raw.astype(str).str.lower()
.map({'true': 1, 'false': 0}).fillna(0).astype(int)`. -/
def target (v : BoolLike) : ℕ :=
  (match pyLower (pyStr v) with
    | "true" => some 1
    | "false" => some 0
    | _ => none).getD 0

/-- `train_mltk_models.train_attrition_model`: if the target has fewer than
two distinct classes the step is skipped (early return, no
`attrition_probability` / `attrition_risk_level` columns); otherwise the
externally fitted logistic model (parameter `predict`) scores every row. -/
def train_attrition_model (predict : Employee → ℚ) (df : List Employee) :
    AttritionResult :=
  if ((df.map fun e => target e.resigned).dedup).length < 2 then
    .skipped
  else
    .trained (df.map predict)

end TrainBasic

namespace Enhanced

/-- `enhanced_train_mltk_models.create_features`: normalized productivity
score, clipped to [0,5] then rounded. -/
def productivity_score (e : Employee) : ℚ :=
  round2 (clip 0 5 ((e.performance * 1.2 + (e.work_hours / 50) * 2 +
    (e.projects / 15) * 1.5 + (e.training_hours / 100) * 1.0 +
    (e.satisfaction / 5) * 1.3) / 5))

/-- `enhanced_train_mltk_models.create_features`: enhanced engagement
score, clipped to [0,5] then rounded. -/
def engagement_score (e : Employee) : ℚ :=
  round2 (clip 0 5 ((e.satisfaction * 1.5 + (e.training_hours / 50) * 1.0 +
    e.promotions * 3 + (e.remote_work / 100) * 0.5 -
    e.sick_days * 0.3) / 4))

/-- `self.df['Resigned'].map({'True': 2.0, 'False': 0.0})` — any other
value (including a native bool) maps to NaN, i.e. `none`. -/
def resignation_map : BoolLike → Option ℚ
  | .str "True" => some 2.0
  | .str "False" => some 0.0
  | _ => none

/-- `enhanced_train_mltk_models.create_features`: enhanced risk score
(NaN propagates when the resignation cell is not the string True/False). -/
def risk_score (e : Employee) : Option ℚ :=
  (resignation_map e.resigned).map fun rr =>
    round2 (clip 0 5 ((e.sick_days * 0.3 + e.overtime / 15 + rr +
      (5 - e.performance) * 0.4 + (5 - e.satisfaction) * 0.3) / 5))

/-- The percentile thresholds snapshot computed by
`assign_optimized_swot_categories` (25th/75th percentiles of each score). -/
structure Thresholds where
  prod_75 : ℚ
  prod_25 : ℚ
  eng_75 : ℚ
  eng_25 : ℚ
  risk_75 : ℚ
  risk_25 : ℚ

/-- `enhanced_train_mltk_models.assign_optimized_swot_categories.assign_swot`:
ordered rules Strength, Threat, Weakness, else Opportunity. -/
def assign_swot (t : Thresholds) (prod eng risk : ℚ) : SWOTCategory :=
  if prod ≥ t.prod_75 ∧ eng ≥ t.eng_75 ∧ risk ≤ t.risk_25 then .Strength
  else if risk ≥ t.risk_75 ∧ (prod ≤ t.prod_25 ∨ eng ≤ t.eng_25) then .Threat
  else if prod ≤ t.prod_25 ∧ eng ≤ t.eng_25 then .Weakness
  else .Opportunity

/-- `train_enhanced_attrition_model` target:
`self.df['Resigned'].map({'True': 1, 'False': 0}).fillna(0).astype(int)`. -/
def target (v : BoolLike) : ℕ :=
  (match v with
    | .str "True" => some 1
    | .str "False" => some 0
    | _ => none).getD 0

/-- `enhanced_train_mltk_models.train_enhanced_attrition_model`: skipped
when the target shows fewer than two distinct classes, otherwise the
externally fitted model scores each row. -/
def train_enhanced_attrition_model (predict : Employee → ℚ)
    (df : List Employee) : AttritionResult :=
  if ((df.map fun e => target e.resigned).dedup).length < 2 then
    .skipped
  else
    .trained (df.map predict)

/-- Number of records of a given category in a population
(`value_counts()` entry, 0 when the category is absent). -/
def countCat (pop : List SWOTCategory) (c : SWOTCategory) : ℕ :=
  (pop.filter (fun x => x = c)).length

/-- `swot_pcts.get(c, 0)`: `value_counts` omits absent categories, so the
lookup falls back to 0; present categories give the rounded share. -/
def swot_pct (pop : List SWOTCategory) (c : SWOTCategory) : ℚ :=
  if countCat pop c = 0 then 0
  else round1 ((countCat pop c : ℚ) / (pop.length : ℚ) * 100)

/-- `generate_comprehensive_insights`: the scalar organization health
score combining the four category percentages. -/
def health_score (pop : List SWOTCategory) : ℚ :=
  swot_pct pop .Strength * 1.0 + swot_pct pop .Opportunity * 0.7 -
    swot_pct pop .Weakness * 0.3 - swot_pct pop .Threat * 1.0

end Enhanced

namespace Validate

/-- One raw CSV row as `validate_swot_analysis.calculate_scores` reads it:
each numeric field is `none` when the column is missing (KeyError) or its
string does not parse as a float (ValueError); `resigned` is `none` when
the `Resigned` column is missing. -/
structure RawEmployee where
  performance : Option ℚ
  work_hours : Option ℚ
  projects : Option ℚ
  training_hours : Option ℚ
  sick_days : Option ℚ
  satisfaction : Option ℚ
  overtime : Option ℚ
  promotions : Option ℚ
  resigned : Option String

/-- Some field read by `calculate_scores` is missing or non-numeric. -/
def hasMissingField (e : RawEmployee) : Prop :=
  e.performance = none ∨ e.work_hours = none ∨ e.projects = none ∨
    e.training_hours = none ∨ e.sick_days = none ∨ e.satisfaction = none ∨
    e.overtime = none ∨ e.promotions = none ∨ e.resigned = none

instance (e : RawEmployee) : Decidable (hasMissingField e) := by
  unfold hasMissingField; infer_instance

/-- `validate_swot_analysis.calculate_scores`: the whole body sits in a
try/except; a ValueError/KeyError (any `none` field) yields `(0, 0, 0)`. -/
def calculate_scores (e : RawEmployee) : ℚ × ℚ × ℚ :=
  match e.performance, e.work_hours, e.projects, e.training_hours,
      e.sick_days, e.satisfaction, e.overtime, e.promotions, e.resigned with
  | some perf, some wh, some proj, some th, some sick, some sat, some ot,
      some promo, some rs =>
    (round2 ((perf * 2 + wh / 40 + proj / 10 + th / 50 - sick / 5 +
        sat / 5) / 6),
     round2 ((sat + th / 10 + promo * 2 - sick * 0.5) / 4),
     round2 ((sick + ot / 10 + (if pyStrip rs = "True" then 5 else 0) +
        (5 - perf) - sat) / 5))
  | _, _, _, _, _, _, _, _, _ => (0, 0, 0)

/-- The per-record scoring loop of `analyze_employees`: every record is
scored, a record with bad fields contributes `(0,0,0)` and the batch
continues. -/
def score_all (es : List RawEmployee) : List (ℚ × ℚ × ℚ) :=
  es.map calculate_scores

/-- `validate_swot_analysis.assign_swot_category`: fixed-threshold rules in
source order (Strength, Threat, mid-band Weakness, else Opportunity). -/
def assign_swot_category (productivity_score engagement_score risk_score :
    ℚ) : SWOTCategory :=
  if productivity_score ≥ 3.5 ∧ engagement_score ≥ 3.5 ∧ risk_score ≤ 2 then
    .Strength
  else if productivity_score < 2.5 ∨ engagement_score < 2.5 ∨
      risk_score ≥ 4 then
    .Threat
  else if (productivity_score ≥ 2.5 ∧ productivity_score < 3.5) ∧
      (engagement_score ≥ 2.5 ∧ engagement_score < 3.5) then
    .Weakness
  else
    .Opportunity

/-- `statistics.mean` of a list. -/
def mean (l : List ℚ) : ℚ := l.sum / (l.length : ℚ)

/-- One per-department entry of `analysis['department_analysis']`.  In the
source the dict keys `avg_productivity` etc. start as lists of scores and
are rebound to their rounded means by the finalization loop; the rebound
values and the later-added `threat_percentage` key are modelled as
`Option` fields (`none` = key absent / still list-valued). -/
structure DeptData where
  total : ℕ
  strengths : ℕ
  weaknesses : ℕ
  opportunities : ℕ
  threats : ℕ
  avg_productivity : List ℚ
  avg_engagement : List ℚ
  avg_risk : List ℚ
  prod_mean : Option ℚ
  eng_mean : Option ℚ
  risk_mean : Option ℚ
  threat_percentage : Option ℚ
deriving DecidableEq, Repr

/-- The defaultdict initializer of `department_analysis`: zero counts,
empty score lists, no derived keys. -/
def initDeptData : DeptData :=
  ⟨0, 0, 0, 0, 0, [], [], [], none, none, none, none⟩

/-- The per-record update of a department's entry inside the
`analyze_employees` loop. -/
def updateDept (d : DeptData) (c : SWOTCategory) (prod eng risk : ℚ) :
    DeptData :=
  { d with
    total := d.total + 1
    strengths := d.strengths + (if c = .Strength then 1 else 0)
    weaknesses := d.weaknesses + (if c = .Weakness then 1 else 0)
    opportunities := d.opportunities + (if c = .Opportunity then 1 else 0)
    threats := d.threats + (if c = .Threat then 1 else 0)
    avg_productivity := d.avg_productivity ++ [prod]
    avg_engagement := d.avg_engagement ++ [eng]
    avg_risk := d.avg_risk ++ [risk] }

/-- The "Calculate department averages" step of `analyze_employees`:
`if data['avg_productivity']:` guards the means and the threat-percentage
division, so an empty group is left untouched. -/
def finalizeDept (d : DeptData) : DeptData :=
  if d.avg_productivity = [] then d
  else
    { d with
      prod_mean := some (round2 (mean d.avg_productivity))
      eng_mean := some (round2 (mean d.avg_engagement))
      risk_mean := some (round2 (mean d.avg_risk))
      threat_percentage :=
        some (round1 ((d.threats : ℚ) / (d.total : ℚ) * 100)) }

end Validate

namespace VerifyDashboard

/-- `verify_dashboard_data.test_data_processing` risk-score term:
`df['Resigned'].apply(lambda x: 5 if x == True or x == 'True' else 0)` —
tolerates a native bool and the exact string `"True"`. -/
def resigned_contribution (v : BoolLike) : ℚ :=
  if v = .pybool true ∨ v = .str "True" then 5 else 0

/-- `verify_dashboard_data.test_data_processing.assign_swot`: same fixed
thresholds and rule order as the validator. -/
def assign_swot (productivity_score engagement_score risk_score : ℚ) :
    SWOTCategory :=
  if productivity_score ≥ 3.5 ∧ engagement_score ≥ 3.5 ∧ risk_score ≤ 2 then
    .Strength
  else if productivity_score < 2.5 ∨ engagement_score < 2.5 ∨
      risk_score ≥ 4 then
    .Threat
  else if productivity_score ≥ 2.5 ∧ productivity_score < 3.5 ∧
      engagement_score ≥ 2.5 ∧ engagement_score < 3.5 then
    .Weakness
  else
    .Opportunity

end VerifyDashboard

/-! Helper lemmas about the rounding and clipping primitives. -/

lemma rhe_mem (a b : ℤ) (x : ℚ) (h1 : (a : ℚ) ≤ x) (h2 : x ≤ (b : ℚ)) :
    a ≤ rhe x ∧ rhe x ≤ b := by
  unfold rhe
  have hfa : a ≤ ⌊x⌋ := Int.le_floor.mpr h1
  split_ifs with ht he
  · refine ⟨hfa, ?_⟩
    have : ⌊x⌋ < b + 1 := Int.floor_lt.mpr (by push_cast; linarith)
    omega
  · have hfl : (⌊x⌋ : ℚ) < (b : ℚ) := by
      have hx : (⌊x⌋ : ℚ) = x - 1 / 2 := by linarith
      linarith
    have hb : ⌊x⌋ < b := by exact_mod_cast hfl
    exact ⟨by omega, by omega⟩
  · rw [round_eq]
    refine ⟨Int.le_floor.mpr (by linarith), ?_⟩
    have : ⌊x + 1 / 2⌋ < b + 1 := Int.floor_lt.mpr (by push_cast; linarith)
    omega

lemma round2_mem (x : ℚ) (h1 : 0 ≤ x) (h2 : x ≤ 5) :
    0 ≤ round2 x ∧ round2 x ≤ 5 := by
  unfold round2
  have h := rhe_mem 0 500 (x * 100) (by push_cast; linarith)
    (by push_cast; linarith)
  have hlo : (0 : ℚ) ≤ (rhe (x * 100) : ℚ) := by exact_mod_cast h.1
  have hhi : (rhe (x * 100) : ℚ) ≤ 500 := by exact_mod_cast h.2
  constructor
  · positivity
  · linarith

lemma clip_mem (x : ℚ) : 0 ≤ clip 0 5 x ∧ clip 0 5 x ≤ 5 :=
  ⟨le_min (by norm_num) (le_max_left 0 x), min_le_left _ _⟩

lemma round1_zero : round1 0 = 0 := by
  norm_num [round1, rhe]

lemma rhe_eq_of_lt (x : ℚ) (n : ℤ) (h1 : (n : ℚ) ≤ x)
    (h2 : x < (n : ℚ) + 1 / 2) : rhe x = n := by
  have hfl : ⌊x⌋ = n := Int.floor_eq_iff.mpr ⟨h1, by linarith⟩
  unfold rhe
  rw [hfl, if_neg (by intro hc; linarith), round_eq]
  exact Int.floor_eq_iff.mpr ⟨by linarith, by linarith⟩

lemma round2_eq (x : ℚ) (n : ℤ) (h : rhe (x * 100) = n) :
    round2 x = (n : ℚ) / 100 := by
  unfold round2; rw [h]

lemma clip_eq_self (x : ℚ) (h1 : 0 ≤ x) (h2 : x ≤ 5) : clip 0 5 x = x := by
  unfold clip; rw [max_eq_right h1, min_eq_right h2]

/-! Claims. -/

/-- C1: for every scores triple and every thresholds snapshot, the
percentile-threshold categorizer and the fixed-threshold categorizer each
return exactly one of the four SWOT categories: the returned value occurs
exactly once in the enumeration of the four categories (so it is never
none of them, and being a single function value it can never be two). -/
theorem C1_categorize_exactly_one (t : Enhanced.Thresholds) (p e r : ℚ) :
    [SWOTCategory.Strength, .Opportunity, .Weakness, .Threat].count
        (Enhanced.assign_swot t p e r) = 1 ∧
    [SWOTCategory.Strength, .Opportunity, .Weakness, .Threat].count
        (Validate.assign_swot_category p e r) = 1 := by
  constructor
  · cases h : Enhanced.assign_swot t p e r <;> decide
  · cases h : Validate.assign_swot_category p e r <;> decide

/-- C2: whenever productivity is at least the 75th-percentile cutoff,
engagement at least its 75th-percentile cutoff, and risk at most the
25th-percentile cutoff, the percentile-variant categorizer returns
Strength, regardless of the truth of the later Threat/Weakness rules. -/
theorem C2_strength_rule_dominates (t : Enhanced.Thresholds) (p e r : ℚ)
    (h1 : t.prod_75 ≤ p) (h2 : t.eng_75 ≤ e) (h3 : r ≤ t.risk_25) :
    Enhanced.assign_swot t p e r = .Strength := by
  unfold Enhanced.assign_swot
  exact if_pos ⟨h1, h2, h3⟩

theorem C2_strength_rule_dominates_witness :
    Enhanced.assign_swot ⟨3, 2, 3, 2, 4, 1⟩ 3 3 1 = .Strength :=
  C2_strength_rule_dominates ⟨3, 2, 3, 2, 4, 1⟩ 3 3 1 (by norm_num)
    (by norm_num) (by norm_num)

/-- C10: in the fixed-threshold variant (both the validator's and the
dashboard verifier's copy), Weakness is returned only when both
productivity and engagement lie in the mid-band [2.5, 3.5); and any record
with productivity below 2.5 is classified Threat (hence never Weakness). -/
theorem C10_weakness_midband (p e r : ℚ) :
    (Validate.assign_swot_category p e r = .Weakness →
      (2.5 ≤ p ∧ p < 3.5) ∧ (2.5 ≤ e ∧ e < 3.5)) ∧
    (p < 2.5 → Validate.assign_swot_category p e r = .Threat) ∧
    (VerifyDashboard.assign_swot p e r = .Weakness →
      (2.5 ≤ p ∧ p < 3.5) ∧ (2.5 ≤ e ∧ e < 3.5)) ∧
    (p < 2.5 → VerifyDashboard.assign_swot p e r = .Threat) := by
  refine ⟨?_, ?_, ?_, ?_⟩
  · intro h
    unfold Validate.assign_swot_category at h
    split_ifs at h with h1 h2 h3
    exact h3
  · intro hp
    unfold Validate.assign_swot_category
    rw [if_neg (fun hc => absurd hc.1 (by norm_num; linarith)),
      if_pos (Or.inl hp)]
  · intro h
    unfold VerifyDashboard.assign_swot at h
    split_ifs at h with h1 h2 h3
    exact ⟨⟨h3.1, h3.2.1⟩, h3.2.2⟩
  · intro hp
    unfold VerifyDashboard.assign_swot
    rw [if_neg (fun hc => absurd hc.1 (by norm_num; linarith)),
      if_pos (Or.inl hp)]

theorem C10_weakness_midband_witness :
    Validate.assign_swot_category 2 3 0 = .Threat ∧
    VerifyDashboard.assign_swot 2 3 0 = .Threat :=
  ⟨(C10_weakness_midband 2 3 0).2.1 (by norm_num),
   (C10_weakness_midband 2 3 0).2.2.2 (by norm_num)⟩

/-- C3 counterexample: on the record performance=5, work_hours=40,
projects=10, training_hours=50, satisfaction=5, sick_days=0 (overtime,
promotions, resignation arbitrary — here 0/0/False), the basic-formula
productivity score is 2.33, not 2.17 and not 13/6: the claim's sum
5*2 + 1 + 1 + 1 − 0 + 1 is 14, not 13. -/
theorem C3_counterexample :
    (Validate.calculate_scores ⟨some 5, some 40, some 10, some 50, some 0,
        some 5, some 0, some 0, some "False"⟩).1 = 2.33 ∧
    (2.33 : ℚ) ≠ 217 / 100 ∧ (2.33 : ℚ) ≠ 13 / 6 := by
  refine ⟨?_, by norm_num, by norm_num⟩
  show round2 ((5 * 2 + 40 / 40 + 10 / 10 + 50 / 50 - 0 / 5 + 5 / 5) / 6) =
    2.33
  rw [show ((5 : ℚ) * 2 + 40 / 40 + 10 / 10 + 50 / 50 - 0 / 5 + 5 / 5) / 6 =
      7 / 3 from by norm_num,
    round2_eq _ 233 (rhe_eq_of_lt _ 233 (by norm_num) (by norm_num))]
  norm_num

/-- C3 amended: on that record the basic-formula productivity score equals
round((5*2 + 1 + 1 + 1 − 0 + 1)/6, 2) = round(14/6, 2) = 2.33, in both the
CSV validator and the basic trainer's feature engineering. -/
theorem C3_amended_productivity (ot promo rwf yrs : ℚ) (rs : String)
    (rb : BoolLike) :
    (Validate.calculate_scores ⟨some 5, some 40, some 10, some 50, some 0,
        some 5, some ot, some promo, some rs⟩).1 = 2.33 ∧
    TrainBasic.productivity_score
      ⟨5, 40, 10, 50, 0, 5, ot, promo, rwf, yrs, rb⟩ = 2.33 := by
  have key : round2 (((5 : ℚ) * 2 + 40 / 40 + 10 / 10 + 50 / 50 - 0 / 5 +
      5 / 5) / 6) = 2.33 := by
    rw [show ((5 : ℚ) * 2 + 40 / 40 + 10 / 10 + 50 / 50 - 0 / 5 + 5 / 5) /
        6 = 7 / 3 from by norm_num,
      round2_eq _ 233 (rhe_eq_of_lt _ 233 (by norm_num) (by norm_num))]
    norm_num
  exact ⟨key, key⟩

/-- C4 counterexample: the basic variant rounds but never clips, so its
risk score can leave [0,5]: a record with 30 sick days, zero performance
and satisfaction, and a resignation gets risk (30 + 0 + 5 + 5 − 0)/5 = 8. -/
theorem C4_counterexample :
    TrainBasic.risk_score ⟨0, 0, 0, 0, 30, 0, 0, 0, 0, 0, .str "True"⟩ =
      some 8 ∧ ¬ ((8 : ℚ) ≤ 5) := by
  refine ⟨?_, by norm_num⟩
  show (some (round2 ((30 + 0 / 10 + 5 + (5 - 0) - 0) / 5)) : Option ℚ) =
    some 8
  rw [show ((30 : ℚ) + 0 / 10 + 5 + (5 - 0) - 0) / 5 = 8 from by norm_num,
    round2_eq _ 800 (rhe_eq_of_lt _ 800 (by norm_num) (by norm_num))]
  norm_num

/-- C4 amended: in the enhanced variant every derived score is clipped to
[0,5] before rounding, so productivity and engagement always lie in [0,5],
and so does the risk score whenever it is defined (i.e. the resignation
cell mapped to a number); the basic variant only rounds and its scores can
leave [0,5]. -/
theorem C4_amended_enhanced_bounds (e : Employee) (q : ℚ)
    (h : Enhanced.risk_score e = some q) :
    (0 ≤ Enhanced.productivity_score e ∧
      Enhanced.productivity_score e ≤ 5) ∧
    (0 ≤ Enhanced.engagement_score e ∧ Enhanced.engagement_score e ≤ 5) ∧
    (0 ≤ q ∧ q ≤ 5) := by
  refine ⟨round2_mem _ (clip_mem _).1 (clip_mem _).2,
    round2_mem _ (clip_mem _).1 (clip_mem _).2, ?_⟩
  unfold Enhanced.risk_score at h
  cases hm : Enhanced.resignation_map e.resigned with
  | none => rw [hm] at h; simp at h
  | some rr =>
    rw [hm] at h
    simp only [Option.map_some', Option.some.injEq] at h
    rw [← h]
    exact round2_mem _ (clip_mem _).1 (clip_mem _).2

theorem C4_amended_enhanced_bounds_witness :
    (0 ≤ Enhanced.productivity_score
        ⟨5, 40, 10, 50, 0, 5, 0, 0, 0, 0, .str "False"⟩ ∧
      Enhanced.productivity_score
        ⟨5, 40, 10, 50, 0, 5, 0, 0, 0, 0, .str "False"⟩ ≤ 5) ∧
    (0 ≤ Enhanced.engagement_score
        ⟨5, 40, 10, 50, 0, 5, 0, 0, 0, 0, .str "False"⟩ ∧
      Enhanced.engagement_score
        ⟨5, 40, 10, 50, 0, 5, 0, 0, 0, 0, .str "False"⟩ ≤ 5) ∧
    (0 ≤ (0 : ℚ) ∧ (0 : ℚ) ≤ 5) :=
  C4_amended_enhanced_bounds ⟨5, 40, 10, 50, 0, 5, 0, 0, 0, 0, .str "False"⟩
    0 (by
      show (some (round2 (clip 0 5 ((0 * 0.3 + 0 / 15 + 0.0 +
          (5 - 5) * 0.4 + (5 - 5) * 0.3) / 5))) : Option ℚ) = some 0
      rw [show ((0 : ℚ) * 0.3 + 0 / 15 + 0.0 + (5 - 5) * 0.4 +
          (5 - 5) * 0.3) / 5 = 0 from by norm_num,
        clip_eq_self 0 le_rfl (by norm_num),
        round2_eq _ 0 (rhe_eq_of_lt _ 0 (by norm_num) (by norm_num))]
      norm_num)

/-- C5: in the basic CSV-only variant a record with a missing or
non-numeric required attribute does not raise: `calculate_scores` falls to
its exception handler and yields the neutral scores (0, 0, 0), and the
scoring loop still processes every record of the batch. -/
theorem C5_missing_field_neutral (es : List Validate.RawEmployee)
    (e : Validate.RawEmployee) (h : Validate.hasMissingField e) :
    Validate.calculate_scores e = (0, 0, 0) ∧
    (Validate.score_all es).length = es.length := by
  constructor
  · rcases e with ⟨p, wh, pr, th, sd, sat, ot, pm, rs⟩
    rcases p with _ | p
    · rfl
    rcases wh with _ | wh
    · rfl
    rcases pr with _ | pr
    · rfl
    rcases th with _ | th
    · rfl
    rcases sd with _ | sd
    · rfl
    rcases sat with _ | sat
    · rfl
    rcases ot with _ | ot
    · rfl
    rcases pm with _ | pm
    · rfl
    rcases rs with _ | rs
    · rfl
    simp [Validate.hasMissingField] at h
  · simp [Validate.score_all]

theorem C5_missing_field_neutral_witness :
    Validate.calculate_scores
      ⟨none, some 40, some 10, some 50, some 0, some 5, some 0, some 0,
        some "False"⟩ = (0, 0, 0) ∧
    (Validate.score_all
      [⟨none, some 40, some 10, some 50, some 0, some 5, some 0, some 0,
        some "False"⟩]).length =
    [(⟨none, some 40, some 10, some 50, some 0, some 5, some 0, some 0,
        some "False"⟩ : Validate.RawEmployee)].length :=
  C5_missing_field_neutral _ _ (Or.inl rfl)

/-- C6 counterexample: the department-averages finalization guards the
empty group with `if data['avg_productivity']:` and otherwise leaves the
entry untouched, so an empty group keeps count 0 but its
`threat_percentage` key is never set to 0 — it stays absent. -/
theorem C6_counterexample :
    (Validate.finalizeDept Validate.initDeptData).total = 0 ∧
    (Validate.finalizeDept Validate.initDeptData).threat_percentage ≠
      some 0 := by
  constructor
  · simp [Validate.finalizeDept, Validate.initDeptData]
  · simp [Validate.finalizeDept, Validate.initDeptData]

/-- C6 amended: finalizing an empty group leaves the zero-initialized
summary unchanged — count stays 0, `threat_percentage` stays unset (no
division is evaluated), and no division-by-zero error can occur. -/
theorem C6_amended_empty_group (d : Validate.DeptData)
    (h : d.avg_productivity = []) : Validate.finalizeDept d = d := by
  unfold Validate.finalizeDept
  exact if_pos h

theorem C6_amended_empty_group_witness :
    Validate.finalizeDept Validate.initDeptData = Validate.initDeptData :=
  C6_amended_empty_group Validate.initDeptData rfl

/-- C7: in both trainer variants, when the binary resignation target shows
fewer than two distinct values the attrition-classifier fitting step
returns skipped (no probability or risk-level populated for any record)
and the function returns normally rather than failing. -/
theorem C7_attrition_skip (predictB predictE : Employee → ℚ)
    (df : List Employee) :
    (((df.map fun e => TrainBasic.target e.resigned).dedup).length < 2 →
      TrainBasic.train_attrition_model predictB df = .skipped) ∧
    (((df.map fun e => Enhanced.target e.resigned).dedup).length < 2 →
      Enhanced.train_enhanced_attrition_model predictE df = .skipped) := by
  refine ⟨fun h => ?_, fun h => ?_⟩
  · unfold TrainBasic.train_attrition_model
    exact if_pos h
  · unfold Enhanced.train_enhanced_attrition_model
    exact if_pos h

theorem C7_attrition_skip_witness :
    TrainBasic.train_attrition_model (fun _ => 0)
      [⟨5, 40, 10, 50, 0, 5, 0, 0, 0, 0, .str "False"⟩] = .skipped ∧
    Enhanced.train_enhanced_attrition_model (fun _ => 0)
      [⟨5, 40, 10, 50, 0, 5, 0, 0, 0, 0, .str "False"⟩] = .skipped :=
  ⟨(C7_attrition_skip (fun _ => 0) (fun _ => 0)
      [⟨5, 40, 10, 50, 0, 5, 0, 0, 0, 0, .str "False"⟩]).1 (by decide),
   (C7_attrition_skip (fun _ => 0) (fun _ => 0)
      [⟨5, 40, 10, 50, 0, 5, 0, 0, 0, 0, .str "False"⟩]).2 (by decide)⟩

/-- C8 counterexample: the enhanced feature deriver's resignation map
accepts only the strings "True"/"False"; on a record whose `Resigned`
cell is a native boolean the map yields NaN and the whole risk score is
undefined, while the same record with the string "True" gets a risk
score — so the risk contribution is not computed correctly under both
representations. -/
theorem C8_counterexample :
    Enhanced.resignation_map (.pybool true) = none ∧
    Enhanced.risk_score ⟨4, 40, 5, 20, 2, 4, 10, 1, 50, 3, .pybool true⟩ =
      none ∧
    Enhanced.risk_score ⟨4, 40, 5, 20, 2, 4, 10, 1, 50, 3, .str "True"⟩ =
      some (79 / 100) := by
  refine ⟨rfl, rfl, ?_⟩
  show (some (round2 (clip 0 5 ((2 * 0.3 + 10 / 15 + 2.0 +
      (5 - 4) * 0.4 + (5 - 4) * 0.3) / 5))) : Option ℚ) = some (79 / 100)
  rw [show ((2 : ℚ) * 0.3 + 10 / 15 + 2.0 + (5 - 4) * 0.4 +
      (5 - 4) * 0.3) / 5 = 119 / 150 from by norm_num,
    clip_eq_self (119 / 150) (by norm_num) (by norm_num),
    round2_eq _ 79 (rhe_eq_of_lt _ 79 (by norm_num) (by norm_num))]
  norm_num

/-- C8 amended: the basic trainer's attrition target
(`astype(str).str.lower()`) handles native booleans and the strings
True/False case-insensitively, and the dashboard verifier's risk
contribution handles native booleans and the exact string "True"; but the
map-based risk contributions in both `create_features` variants accept
only the exact strings "True"/"False" and give NaN for native booleans. -/
theorem C8_amended_resigned_tolerance (b : Bool) (s : String) :
    (TrainBasic.target (.pybool b) = if b then 1 else 0) ∧
    (pyLower s = "true" → TrainBasic.target (.str s) = 1) ∧
    (pyLower s = "false" → TrainBasic.target (.str s) = 0) ∧
    (VerifyDashboard.resigned_contribution (.pybool b) =
      if b then 5 else 0) ∧
    (VerifyDashboard.resigned_contribution (.str "True") = 5) ∧
    (Enhanced.resignation_map (.pybool b) = none) ∧
    (TrainBasic.resigned_map (.pybool b) = none) := by
  cases b <;>
    refine ⟨by decide, fun h => ?_, fun h => ?_, by decide, by decide, rfl,
      rfl⟩ <;>
    simp only [TrainBasic.target, pyStr, h] <;> rfl

theorem C8_amended_resigned_tolerance_witness :
    TrainBasic.target (.str "TRUE") = 1 ∧
    TrainBasic.target (.str "FALSE") = 0 :=
  ⟨(C8_amended_resigned_tolerance true "TRUE").2.1 (by decide),
   (C8_amended_resigned_tolerance true "FALSE").2.2.1 (by decide)⟩

/-- C9: the report generator's health score equals
Strength% × 1.0 + Opportunity% × 0.7 − Weakness% × 0.3 − Threat% × 1.0,
where each percentage is the rounded category share of the population and
a category absent from `value_counts` contributes 0. -/
theorem C9_health_score_formula (pop : List SWOTCategory) :
    Enhanced.health_score pop =
      round1 ((Enhanced.countCat pop .Strength : ℚ) / (pop.length : ℚ) *
          100) * 1.0 +
      round1 ((Enhanced.countCat pop .Opportunity : ℚ) / (pop.length : ℚ) *
          100) * 0.7 -
      round1 ((Enhanced.countCat pop .Weakness : ℚ) / (pop.length : ℚ) *
          100) * 0.3 -
      round1 ((Enhanced.countCat pop .Threat : ℚ) / (pop.length : ℚ) *
          100) * 1.0 := by
  unfold Enhanced.health_score Enhanced.swot_pct
  by_cases hs : Enhanced.countCat pop .Strength = 0 <;>
    by_cases ho : Enhanced.countCat pop .Opportunity = 0 <;>
      by_cases hw : Enhanced.countCat pop .Weakness = 0 <;>
        by_cases ht : Enhanced.countCat pop .Threat = 0 <;>
          simp [hs, ho, hw, ht, round1_zero]
